import Mathlib

/-!
Verification development for the `cover_agent.cc_mcp.hybrid_server` fragment.

The Python module `hybrid_server.py` implements `HybridCoverAgentMCPServer`,
a thin dispatcher exposing six remote operations that read files, shell out
to a test runner, call two external collaborators (a coverage-report parser
and a language-server client) and serialize results as JSON.

The development below is a shallow embedding of that module:
  * `Json` models the Python dictionaries that the handlers build and the
    `json.dumps` / `json.loads` round trip (which is the identity at the
    value level for the payloads built here);
  * `Env` models the external world (file system, subprocess runner,
    coverage parser, language-server client); a collaborator failure is an
    `Except.error` carrying the textual message of the Python exception
    (`str(e)`);
  * `ServerState` models the two mutable instance fields (`lsp_server`,
    `project_root`) plus `project_language`;
  * each Python method is embedded as a Lean function of the same name
    (leading underscores dropped where Lean prefers it).
-/

namespace CcMcp

/-- JSON values as produced by the handlers.  Python ints and floats are
kept apart (`int` vs `rat`); Python floats are modelled as rationals, which
is faithful here because the fragment only passes the parser percentage
through and compares or subtracts it. -/
inductive Json where
  | null : Json
  | bool : Bool → Json
  | int : Int → Json
  | rat : ℚ → Json
  | str : String → Json
  | arr : List Json → Json
  | obj : List (String × Json) → Json

instance : Inhabited Json := ⟨Json.null⟩

/-- First binding of a key in a field list, as Python dict lookup (keys are
unique in every dictionary the handlers build). -/
def lookupField : List (String × Json) → String → Option Json
  | [], _ => none
  | (k, v) :: fs, key => if k = key then some v else lookupField fs key

/-- `d.get(key)` / `d[key]` on an object. -/
def Json.find : Json → String → Option Json
  | .obj fs, key => lookupField fs key
  | _, _ => none

/-- Read a string-valued field. -/
def Json.getStr (j : Json) (key : String) : Option String :=
  match j.find key with
  | some (.str s) => some s
  | _ => none

/-- Read a numeric field as a rational, with a default (models
`d.get(key, 0)` followed by numeric use; Python ints and floats compare
interchangeably). -/
def Json.getNum (j : Json) (key : String) (dflt : ℚ) : ℚ :=
  match j.find key with
  | some (.int n) => (n : ℚ)
  | some (.rat q) => q
  | _ => dflt

/-- Read an array-valued field, defaulting to the empty list (models
`d.get(key, [])`). -/
def Json.getArr (j : Json) (key : String) : List Json :=
  match j.find key with
  | some (.arr xs) => xs
  | _ => []

/-- The two-field error record every catch-all boundary builds:
`{"status": "error", "error": str(e)}`. -/
def errObj (msg : String) : Json :=
  Json.obj [("status", Json.str "error"), ("error", Json.str msg)]

/-! ### Python string primitives -/

/-- Python `str.isspace` characters relevant to `strip()`. -/
def pyIsSpace (c : Char) : Bool :=
  c = ' ' || c = '\t' || c = '\n' || c = '\r' || c = '\x0b' || c = '\x0c'

/-- Python `str.strip()` (no argument): drop whitespace on both ends. -/
def pyStrip (s : String) : String :=
  ⟨(((s.data.dropWhile pyIsSpace).reverse.dropWhile pyIsSpace).reverse)⟩

/-- Prefix test on character lists. -/
def isPrefixL : List Char → List Char → Bool
  | [], _ => true
  | _ :: _, [] => false
  | c :: cs, d :: ds => c = d && isPrefixL cs ds

/-- `str.lower()` (ASCII view, as everywhere in this embedding). -/
def sToLower (s : String) : String :=
  ⟨s.data.map Char.toLower⟩

/-- `str.upper()`. -/
def sToUpper (s : String) : String :=
  ⟨s.data.map Char.toUpper⟩

/-- `s.startswith(pre)`. -/
def sStartsWith (s pre : String) : Bool :=
  isPrefixL pre.data s.data

/-- `s.endswith(suf)`. -/
def sEndsWith (s suf : String) : Bool :=
  isPrefixL suf.data.reverse s.data.reverse

/-- Fueled splitter on a non-empty separator; the fuel (the length of the
remaining input at the first call) decreases by one while the input
shrinks by at least one character per step, so the zero-fuel case is never
reached. -/
def splitOnN (sep : List Char) : Nat → List Char → List (List Char)
  | _, [] => [[]]
  | 0, s => [s]
  | fuel + 1, c :: cs =>
    if sep.isEmpty then [c :: cs]
    else if isPrefixL sep (c :: cs) then
      [] :: splitOnN sep fuel ((c :: cs).drop sep.length)
    else
      match splitOnN sep fuel cs with
      | [] => [[c]]
      | p :: ps => (c :: p) :: ps

/-- `s.split(sep)` for a non-empty separator: the pieces between the
non-overlapping left-to-right occurrences of `sep`. -/
def sSplitOn (s sep : String) : List String :=
  (splitOnN sep.data s.data.length s.data).map (fun l => ⟨l⟩)

/-- Fueled engine of `str.replace` (same fuel argument as `splitOnN`). -/
def replaceN (old new : List Char) : Nat → List Char → List Char
  | _, [] => []
  | 0, s => s
  | fuel + 1, c :: cs =>
    if old.isEmpty then c :: cs
    else if isPrefixL old (c :: cs) then
      new ++ replaceN old new fuel ((c :: cs).drop old.length)
    else
      c :: replaceN old new fuel cs

/-- `s.replace(old, new)` for a non-empty `old`: every non-overlapping
left-to-right occurrence is replaced. -/
def sReplace (s old new : String) : String :=
  ⟨replaceN old.data new.data s.data.length s.data⟩

/-- Python `sub in s` substring containment. -/
def pyContains (s sub : String) : Bool :=
  (sSplitOn s sub).length ≥ 2

/-- Python `f.readlines()`: split after each newline, keeping the
terminator, with no empty final element for a trailing newline. -/
def pyReadlines (s : String) : List String :=
  let parts := sSplitOn s "\n"
  match parts.reverse with
  | [] => []
  | last :: revInit =>
    let initLines := (revInit.reverse).map (fun l => l ++ "\n")
    if last = "" then initLines else initLines ++ [last]

/-! ### Path operations (`pathlib.PurePosixPath` / `os.path`) -/

/-- `Path(p).name`: final component, ignoring trailing slashes; the special
components `.` and `..` have an empty name. -/
def pathName (p : String) : String :=
  let trimmed : List Char := (p.data.reverse.dropWhile (· = '/')).reverse
  let base : List Char := (trimmed.reverse.takeWhile (· ≠ '/')).reverse
  let n : String := ⟨base⟩
  if n = "." || n = ".." then "" else n

/-- Index of the last dot of a character list, if any. -/
def lastDotIdx (cs : List Char) : Option Nat :=
  match cs.reverse.findIdx? (· = '.') with
  | some k => some (cs.length - 1 - k)
  | none => none

/-- `Path(p).suffix`: from the last dot of the name, provided that dot is
neither the first nor the last character of the name. -/
def pathSuffix (p : String) : String :=
  let n := pathName p
  match lastDotIdx n.data with
  | some i => if 0 < i ∧ i < n.data.length - 1 then ⟨n.data.drop i⟩ else ""
  | none => ""

/-- `Path(p).stem`: name with the suffix removed. -/
def pathStem (p : String) : String :=
  let n := pathName p
  let suf := pathSuffix p
  ⟨n.data.take (n.data.length - suf.data.length)⟩

/-- `Path(p).parent` rendered as a string. -/
def pathParent (p : String) : String :=
  let trimmed : List Char := (p.data.reverse.dropWhile (· = '/')).reverse
  if trimmed = [] then (if p = "" then "." else "/")
  else
    let dir : List Char := (trimmed.reverse.dropWhile (· ≠ '/')).reverse
    match (dir.reverse.dropWhile (· = '/')).reverse with
    | [] => if dir = [] then "." else "/"
    | ds => ⟨ds⟩

/-- `Path(dir) / name` rendered as a string. -/
def pathJoinP (dir name : String) : String :=
  if dir = "." then name
  else if sEndsWith dir "/" then dir ++ name
  else dir ++ "/" ++ name

/-- `os.path.join(root, rel)` for a relative `rel`. -/
def osPathJoin (root rel : String) : String :=
  if root = "" then rel
  else if sEndsWith root "/" then root ++ rel
  else root ++ "/" ++ rel

/-! ### Languages (`multilspy` `Language` enumeration, external to the
fragment) and extension-based detection -/

/-- The language tags the server dispatches on.  The enumeration itself
lives in the external `multilspy` collaborator; only the six members used
by `hybrid_server.py` are relevant. -/
inductive Language where
  | python | java | javascript | typescript | csharp | rust
deriving DecidableEq

/-- String value of a `Language` member (its `str()` form used for
`project_language` and payload fields). -/
def Language.tag : Language → String
  | .python => "python"
  | .java => "java"
  | .javascript => "javascript"
  | .typescript => "typescript"
  | .csharp => "csharp"
  | .rust => "rust"

/-- The `language_extensions` table of `HybridCoverAgentMCPServer.__init__`
(twelve extensions; C-family extensions fall back to the C# server). -/
def language_extensions : List (String × Language) :=
  [(".py", .python), (".java", .java), (".js", .javascript),
   (".ts", .typescript), (".cs", .csharp), (".rs", .rust),
   (".cpp", .csharp), (".cc", .csharp), (".cxx", .csharp),
   (".c", .csharp), (".h", .csharp), (".hpp", .csharp)]

/-- `_detect_language`: lower-cased suffix looked up in the table, with
`Language.PYTHON` as the default. -/
def detect_language (file_path : String) : Language :=
  match language_extensions.lookup (sToLower (pathSuffix file_path)) with
  | some l => l
  | none => Language.python

/-- `is_cpp_file` test used in `_analyze_file_structure_multilang` and
`_create_test_generation_prompt`. -/
def isCppFile (file_path : String) : Bool :=
  let e := sToLower (pathSuffix file_path)
  e = ".cpp" || e = ".cc" || e = ".cxx" || e = ".c" || e = ".h" || e = ".hpp"

/-! ### A small regular-expression engine

`_analyze_file_structure_multilang` applies `re.search` with a fixed table
of patterns.  The patterns only use literals, the classes `\w`, `\s`, `.`
and bracket classes, concatenation, alternation, `+`, `*` and `?`, so a
backtracking matcher over character lists suffices.  Capture groups only
delimit alternatives in these patterns (no captured text is ever used
successfully by the code, see `analyzeFileStructureMultilang`), so the
engine tracks matching only. -/
inductive Rx where
  | eps : Rx
  | cls : (Char → Bool) → Rx
  | seq : Rx → Rx → Rx
  | alt : Rx → Rx → Rx
  | star : Rx → Rx

/-- Pattern size, used only to bound the matcher recursion depth. -/
def Rx.size : Rx → Nat
  | .eps => 1
  | .cls _ => 1
  | .seq a b => a.size + b.size + 1
  | .alt a b => a.size + b.size + 1
  | .star a => a.size + 1

/-- Fueled matcher: all suffixes remaining after a match of `r` at the head
of `s`.  A starred sub-pattern iterates only on strictly shorter suffixes;
every starred sub-pattern in the tables below consumes at least one
character on any match, so this implements `*` for them exactly.  Along
every recursive call either the pattern shrinks (with the string no
longer) or the string shrinks, so `(r.size + 1) * (s.length + 1)` bounds
the call depth and `rmatch` below never exhausts its fuel. -/
def rmatchN : Nat → Rx → List Char → List (List Char)
  | 0, _, _ => []
  | fuel + 1, r, s =>
    match r, s with
    | .eps, s => [s]
    | .cls _, [] => []
    | .cls p, c :: cs => if p c then [cs] else []
    | .seq a b, s => (rmatchN fuel a s).flatMap (fun s2 => rmatchN fuel b s2)
    | .alt a b, s => rmatchN fuel a s ++ rmatchN fuel b s
    | .star a, s =>
      s :: ((rmatchN fuel a s).filter (fun s2 => s2.length < s.length)).flatMap
        (fun s2 => rmatchN fuel (.star a) s2)

/-- All suffixes remaining after a match of `r` at the head of `s`. -/
def rmatch (r : Rx) (s : List Char) : List (List Char) :=
  rmatchN ((r.size + 1) * (s.length + 1) + 1) r s

/-- `re.search` as a Boolean: does `r` match at some position of `s`? -/
def rsearchList (r : Rx) : List Char → Bool
  | [] => !(rmatch r []).isEmpty
  | c :: cs => !(rmatch r (c :: cs)).isEmpty || rsearchList r cs

/-- `bool(re.search(r, s))`. -/
def rsearch (r : Rx) (s : String) : Bool :=
  rsearchList r s.data

/-- Literal character. -/
def Rx.ch (c : Char) : Rx := Rx.cls (· = c)

/-- Literal string. -/
def Rx.lit (s : String) : Rx :=
  s.data.foldr (fun c r => Rx.seq (Rx.ch c) r) Rx.eps

/-- `r?`. -/
def Rx.opt (r : Rx) : Rx := Rx.alt Rx.eps r

/-- `r+`. -/
def Rx.plus (r : Rx) : Rx := Rx.seq r (Rx.star r)

/-- `\w` (ASCII view; the inputs of interest are ASCII). -/
def wordChar (c : Char) : Bool := c.isAlphanum || c = '_'

/-- `\s`. -/
def spaceChar (c : Char) : Bool := pyIsSpace c

/-- `.` (any character but a newline). -/
def dotChar (c : Char) : Bool := c ≠ '\n'

/-- `\w+`. -/
def rxWordP : Rx := Rx.plus (Rx.cls wordChar)

/-- `\s+`. -/
def rxSpaceP : Rx := Rx.plus (Rx.cls spaceChar)

/-- `\s*`. -/
def rxSpaceS : Rx := Rx.star (Rx.cls spaceChar)

/-- Chain of alternatives. -/
def rxAlts : List Rx → Rx
  | [] => Rx.eps
  | [r] => r
  | r :: rs => Rx.alt r (rxAlts rs)

/-- Chain of sequenced pieces. -/
def rxSeqs : List Rx → Rx
  | [] => Rx.eps
  | [r] => r
  | r :: rs => Rx.seq r (rxSeqs rs)

/-! ### The pattern tables of `_get_language_specific_patterns` and
`_get_cpp_patterns`

Every `class` and `function` pattern below contains at least one capture
group in the Python source, which is what makes `group(-1)` reachable in
`_analyze_file_structure_multilang`. -/

/-- Per-language pattern triple. -/
structure Patterns where
  classRx : Rx
  funcRx : Rx
  importRx : Rx

/-- Python: `class\s+(\w+)`, `def\s+(\w+)`,
`(import\s+\w+|from\s+\w+\s+import)`. -/
def pythonPatterns : Patterns where
  classRx := rxSeqs [Rx.lit "class", rxSpaceP, rxWordP]
  funcRx := rxSeqs [Rx.lit "def", rxSpaceP, rxWordP]
  importRx := Rx.alt (rxSeqs [Rx.lit "import", rxSpaceP, rxWordP])
    (rxSeqs [Rx.lit "from", rxSpaceP, rxWordP, rxSpaceP, Rx.lit "import"])

/-- Java: `(public\s+|private\s+|protected\s+)?class\s+(\w+)`,
`(public\s+|private\s+|protected\s+|static\s+)*\w+\s+(\w+)\s*\(`,
`import\s+[\w\.]+`. -/
def javaPatterns : Patterns where
  classRx := rxSeqs [Rx.opt (rxAlts [rxSeqs [Rx.lit "public", rxSpaceP],
      rxSeqs [Rx.lit "private", rxSpaceP], rxSeqs [Rx.lit "protected", rxSpaceP]]),
    Rx.lit "class", rxSpaceP, rxWordP]
  funcRx := rxSeqs [Rx.star (rxAlts [rxSeqs [Rx.lit "public", rxSpaceP],
      rxSeqs [Rx.lit "private", rxSpaceP], rxSeqs [Rx.lit "protected", rxSpaceP],
      rxSeqs [Rx.lit "static", rxSpaceP]]),
    rxWordP, rxSpaceP, rxWordP, rxSpaceS, Rx.ch '(']
  importRx := rxSeqs [Rx.lit "import", rxSpaceP,
    Rx.plus (Rx.cls (fun c => wordChar c || c = '.'))]

/-- JavaScript: `class\s+(\w+)`,
`(function\s+(\w+)|(\w+)\s*:\s*function|(\w+)\s*=\s*function)`,
`(import\s+.*from|require\s*\()`. -/
def javascriptPatterns : Patterns where
  classRx := rxSeqs [Rx.lit "class", rxSpaceP, rxWordP]
  funcRx := rxAlts [rxSeqs [Rx.lit "function", rxSpaceP, rxWordP],
    rxSeqs [rxWordP, rxSpaceS, Rx.ch ':', rxSpaceS, Rx.lit "function"],
    rxSeqs [rxWordP, rxSpaceS, Rx.ch '=', rxSpaceS, Rx.lit "function"]]
  importRx := Rx.alt
    (rxSeqs [Rx.lit "import", rxSpaceP, Rx.star (Rx.cls dotChar), Rx.lit "from"])
    (rxSeqs [Rx.lit "require", rxSpaceS, Rx.ch '('])

/-- TypeScript: `(export\s+)?class\s+(\w+)`,
`(function\s+(\w+)|(\w+)\s*:\s*\([^)]*\)\s*=>|(\w+)\s*=\s*\([^)]*\)\s*=>)`,
same import pattern as JavaScript. -/
def typescriptPatterns : Patterns where
  classRx := rxSeqs [Rx.opt (rxSeqs [Rx.lit "export", rxSpaceP]),
    Rx.lit "class", rxSpaceP, rxWordP]
  funcRx := rxAlts [rxSeqs [Rx.lit "function", rxSpaceP, rxWordP],
    rxSeqs [rxWordP, rxSpaceS, Rx.ch ':', rxSpaceS, Rx.ch '(',
      Rx.star (Rx.cls (· ≠ ')')), Rx.ch ')', rxSpaceS, Rx.lit "=>"],
    rxSeqs [rxWordP, rxSpaceS, Rx.ch '=', rxSpaceS, Rx.ch '(',
      Rx.star (Rx.cls (· ≠ ')')), Rx.ch ')', rxSpaceS, Rx.lit "=>"]]
  importRx := Rx.alt
    (rxSeqs [Rx.lit "import", rxSpaceP, Rx.star (Rx.cls dotChar), Rx.lit "from"])
    (rxSeqs [Rx.lit "require", rxSpaceS, Rx.ch '('])

/-- C#: `(public\s+|private\s+|internal\s+)?class\s+(\w+)`,
`(public\s+|private\s+|protected\s+|internal\s+|static\s+)*\w+\s+(\w+)\s*\(`,
`using\s+[\w\.]+`. -/
def csharpPatterns : Patterns where
  classRx := rxSeqs [Rx.opt (rxAlts [rxSeqs [Rx.lit "public", rxSpaceP],
      rxSeqs [Rx.lit "private", rxSpaceP], rxSeqs [Rx.lit "internal", rxSpaceP]]),
    Rx.lit "class", rxSpaceP, rxWordP]
  funcRx := rxSeqs [Rx.star (rxAlts [rxSeqs [Rx.lit "public", rxSpaceP],
      rxSeqs [Rx.lit "private", rxSpaceP], rxSeqs [Rx.lit "protected", rxSpaceP],
      rxSeqs [Rx.lit "internal", rxSpaceP], rxSeqs [Rx.lit "static", rxSpaceP]]),
    rxWordP, rxSpaceP, rxWordP, rxSpaceS, Rx.ch '(']
  importRx := rxSeqs [Rx.lit "using", rxSpaceP,
    Rx.plus (Rx.cls (fun c => wordChar c || c = '.'))]

/-- Rust: `(pub\s+)?struct\s+(\w+)`, `(pub\s+)?fn\s+(\w+)`, `use\s+[\w:]+`. -/
def rustPatterns : Patterns where
  classRx := rxSeqs [Rx.opt (rxSeqs [Rx.lit "pub", rxSpaceP]),
    Rx.lit "struct", rxSpaceP, rxWordP]
  funcRx := rxSeqs [Rx.opt (rxSeqs [Rx.lit "pub", rxSpaceP]),
    Rx.lit "fn", rxSpaceP, rxWordP]
  importRx := rxSeqs [Rx.lit "use", rxSpaceP,
    Rx.plus (Rx.cls (fun c => wordChar c || c = ':'))]

/-- `_get_language_specific_patterns` (the `.get` default is the Python
entry, but every member is present in the table). -/
def get_language_specific_patterns : Language → Patterns
  | .python => pythonPatterns
  | .java => javaPatterns
  | .javascript => javascriptPatterns
  | .typescript => typescriptPatterns
  | .csharp => csharpPatterns
  | .rust => rustPatterns

/-- `_get_cpp_patterns`: `class\s+(\w+)`, `(\w+)\s+(\w+)\s*\(`,
`#include\s+[<\"][^>\"]*[>\"]`. -/
def get_cpp_patterns : Patterns where
  classRx := rxSeqs [Rx.lit "class", rxSpaceP, rxWordP]
  funcRx := rxSeqs [rxWordP, rxSpaceP, rxWordP, rxSpaceS, Rx.ch '(']
  importRx := rxSeqs [Rx.lit "#include", rxSpaceP,
    Rx.cls (fun c => c = '<' || c = '\"'),
    Rx.star (Rx.cls (fun c => c ≠ '>' && c ≠ '\"')),
    Rx.cls (fun c => c = '>' || c = '\"')]

/-! ### The external world and the server state -/

/-- Result of `subprocess.run(..., shell=True, capture_output=True)`. -/
structure SubprocResult where
  returncode : Int
  stderr : String

/-- The collaborators and system facilities the handlers call.  Each
fallible call is an `Except`, whose error carries `str(e)` of the Python
exception.  `parseCoverage` bundles the `CoverageProcessor` construction
and its `parse_coverage_report()` (covered lines, uncovered lines,
percentage); `initLsp` and `findContext` are the language-server client
calls; `pythonExe` is `sys.executable`. -/
structure Env where
  readFile : String → Except String String
  pathExists : String → Bool
  runCommand : String → Except String SubprocResult
  parseCoverage : String → String → Except String (List Int × List Int × ℚ)
  initLsp : String → String → Except String Nat
  findContext : Nat → String → String → String → Except String (List String)
  pythonExe : String

/-- The mutable instance fields of `HybridCoverAgentMCPServer`: the cached
language-server handle, its associated project root, and the last detected
project language. -/
structure ServerState where
  lsp_server : Option Nat
  project_root : Option String
  project_language : String

/-- The state right after `__init__`. -/
def initialState : ServerState :=
  { lsp_server := none, project_root := none, project_language := "python" }

/-! ### Number rendering used in message strings

Python renders the parser percentage with `f"{x:.1f}"` and `str(float)` in
a few human-readable message strings (never re-parsed by the code).  Exact
IEEE-754 rendering is outside the embedding; these helpers model the two
formats on rationals. -/

/-- Models `f"{q:.1f}"`. -/
def fmt1 (q : ℚ) : String :=
  let n : Int := round (q * 10)
  let sign := if n < 0 then "-" else ""
  sign ++ toString (n.natAbs / 10) ++ "." ++ toString (n.natAbs % 10)

/-- Models `str(float)` for the message strings. -/
def pyFloatStr (q : ℚ) : String :=
  if q.den = 1 then toString q.num ++ ".0" else fmt1 q

/-! ### `_analyze_file_structure_multilang`

Each line is stripped and searched with the import, class and function
patterns in that order.  On a class or function match the Python code
evaluates `class_match.group(-1) if class_match.groups() else "Unknown"`;
every class and function pattern in the tables carries at least one capture
group, so `groups()` is a non-empty tuple and `group(-1)` raises
`IndexError("no such group")` (negative group numbers are invalid in
`re.Match.group`).  The analysis therefore aborts with that message at the
first line matching a class or function pattern, and the `classes` /
`functions` lists can never be extended. -/

/-- Line loop of `_analyze_file_structure_multilang`: accumulates the
`(line number, stripped content)` import entries, or aborts with the
`IndexError` message at the first class/function match. -/
def analyzeLines (pats : Patterns) : Nat → List String → Except String (List (Nat × String))
  | _, [] => .ok []
  | i, line :: rest =>
    let stripped := pyStrip line
    if rsearch pats.classRx stripped then .error "no such group"
    else if rsearch pats.funcRx stripped then .error "no such group"
    else
      match analyzeLines pats (i + 1) rest with
      | .error e => .error e
      | .ok imps =>
        .ok (if rsearch pats.importRx stripped then (i, stripped) :: imps else imps)

/-- The flat record `_analyze_file_structure_multilang` returns on
success. -/
structure FileAnalysis where
  total_lines : Nat
  classes : List (Nat × String × String)
  functions : List (Nat × String × String)
  imports : List (Nat × String)
  file_type : String
  language : String

/-- JSON form of a class/function entry `{"line": i, "name": n,
"content": c}`. -/
def defEntryJson (e : Nat × String × String) : Json :=
  Json.obj [("line", Json.int e.1), ("name", Json.str e.2.1),
    ("content", Json.str e.2.2)]

/-- JSON form of the file-analysis record, fields in source order. -/
def FileAnalysis.toJson (fa : FileAnalysis) : Json :=
  Json.obj [
    ("total_lines", Json.int fa.total_lines),
    ("classes", Json.arr (fa.classes.map defEntryJson)),
    ("functions", Json.arr (fa.functions.map defEntryJson)),
    ("imports", Json.arr (fa.imports.map (fun e =>
      Json.obj [("line", Json.int e.1), ("content", Json.str e.2)]))),
    ("file_type", Json.str fa.file_type),
    ("language", Json.str fa.language)]

/-- `_analyze_file_structure_multilang(content, file_path, language)`. -/
def analyzeFileStructureMultilang (content file_path : String) (language : Language) :
    Except String FileAnalysis :=
  let pats := if isCppFile file_path then get_cpp_patterns
    else get_language_specific_patterns language
  let langTag := if isCppFile file_path then "cpp" else language.tag
  let lines := sSplitOn content "\n"
  match analyzeLines pats 1 lines with
  | .error e => .error e
  | .ok imps =>
    .ok
      { total_lines := lines.length, classes := [], functions := [],
        imports := imps, file_type := pathSuffix file_path, language := langTag }

/-- `_generate_context_suggestions(file_analysis, context_files)`. -/
def generate_context_suggestions (fa : FileAnalysis) (context_files : List String) :
    List String :=
  (if fa.classes ≠ [] then
    ["Found " ++ toString fa.classes.length ++ " classes that need testing"] else []) ++
  (if fa.functions ≠ [] then
    ["Found " ++ toString fa.functions.length ++ " functions that need testing"] else []) ++
  (if context_files ≠ [] then
    ["Found " ++ toString context_files.length ++ " related files for context"] else [])

/-! ### `analyze_code_context` -/

/-- State phase of `analyze_code_context`: `self.project_language` is set
to the detected tag, then the handle is lazily (re-)initialized when there
is no cached handle or the cached root differs from the call root.  On an
initialization failure the handle is cleared and the cached root is left as
it was (the assignment after the failed `await` is skipped). -/
def accState (env : Env) (st : ServerState) (source_file project_root : String) :
    ServerState :=
  let detected := detect_language source_file
  let st1 := { st with project_language := detected.tag }
  if st.lsp_server = none ∨ st.project_root ≠ some project_root then
    match env.initLsp project_root detected.tag with
    | .ok h => { st1 with lsp_server := some h, project_root := some project_root }
    | .error _ => { st1 with lsp_server := none }
  else st1

/-- Context-file phase of `analyze_code_context`: `find_test_file_context`
is consulted only when a handle is available, and its failure is degraded
to an empty list. -/
def accContextFiles (env : Env) (st2 : ServerState)
    (source_file project_root : String) (detected : Language) : List String :=
  match st2.lsp_server with
  | some h =>
    match env.findContext h project_root detected.tag source_file with
    | .ok fs => fs
    | .error _ => []
  | none => []

/-- Payload phase of `analyze_code_context`: read the source, run the
structural analysis, build the result record; a failure of either step
reaches the catch-all boundary and becomes the two-field error record. -/
def accPayload (env : Env) (source_file project_root : String)
    (detected : Language) (context_files : List String) : Json :=
  match env.readFile source_file with
  | .error e => errObj e
  | .ok content =>
    match analyzeFileStructureMultilang content source_file detected with
    | .error e => errObj e
    | .ok fa =>
      Json.obj [
        ("source_file", Json.str source_file),
        ("context_files", Json.arr (context_files.map Json.str)),
        ("file_analysis", fa.toJson),
        ("project_root", Json.str project_root),
        ("language", Json.str detected.tag),
        ("status", Json.str "success"),
        ("suggestions", Json.arr
          ((generate_context_suggestions fa context_files).map Json.str))]

/-- `analyze_code_context(source_file, project_root)`: the three phases in
the source order (language detection and lazy LSP initialization, context
files, file read plus structural analysis), returning the payload and the
updated instance state. -/
def analyze_code_contextJ (env : Env) (st : ServerState)
    (source_file project_root : String) : Json × ServerState :=
  let detected := detect_language source_file
  let st2 := accState env st source_file project_root
  (accPayload env source_file project_root detected
    (accContextFiles env st2 source_file project_root detected), st2)

/-! ### `get_coverage_gaps` -/

/-- The language-specific shell command `get_coverage_gaps` builds. -/
def gapsCommand (env : Env) (source_file test_file project_root : String) : String :=
  match detect_language source_file with
  | .python => "cd " ++ project_root ++ " && " ++ env.pythonExe ++ " -m pytest " ++
      test_file ++ " --cov=. --cov-report=xml --cov-report=term"
  | .java => "cd " ++ project_root ++ " && mvn test jacoco:report"
  | .javascript => "cd " ++ project_root ++
      " && npm test -- --coverage --coverageReporters=lcov"
  | .typescript => "cd " ++ project_root ++
      " && npm test -- --coverage --coverageReporters=lcov"
  | .csharp => "cd " ++ project_root ++
      " && dotnet test --collect:\"XPlat Code Coverage\""
  | .rust => "cd " ++ project_root ++ " && cargo test"

/-- The language-specific coverage-report path (the Python default
`coverage.xml` is kept for the Python branch). -/
def gapsReportPath (source_file project_root : String) : String :=
  match detect_language source_file with
  | .python => osPathJoin project_root "coverage.xml"
  | .java => osPathJoin project_root "target/site/jacoco/jacoco.xml"
  | .javascript => osPathJoin project_root "coverage/lcov.info"
  | .typescript => osPathJoin project_root "coverage/lcov.info"
  | .csharp => osPathJoin project_root "TestResults/*/coverage.cobertura.xml"
  | .rust => osPathJoin project_root "target/coverage/coverage.xml"

/-- Filtering loop of `_analyze_uncovered_lines`: keep the uncovered line
numbers within `[1, len(lines)]` whose stripped content is non-empty and
not a comment, paired with that stripped content. -/
def uncoveredEntries (content : String) (uncovered : List Int) : List (Int × String) :=
  let lines := pyReadlines content
  uncovered.filterMap fun (line_num : Int) =>
    if 0 < line_num ∧ line_num ≤ (lines.length : Int) then
      let line_content := pyStrip (lines.getD (line_num - 1).toNat "")
      if line_content ≠ "" ∧ ¬ sStartsWith line_content "#" then
        some (line_num, line_content)
      else none
    else none

/-- `_is_critical_line(line_content)`: substring test against the fixed
pattern list. -/
def is_critical_line (line_content : String) : Bool :=
  ["if __name__ == \"__main__\"", "raise ", "return ", "assert ",
   "except ", "finally:", "with ", "def ", "class "].any
    (fun pat => pyContains line_content pat)

/-- JSON form of an uncovered-line entry `{"line": n, "content": c}`. -/
def uncEntryJson (e : Int × String) : Json :=
  Json.obj [("line", Json.int e.1), ("content", Json.str e.2)]

/-- `_analyze_uncovered_lines(source_file, uncovered_lines)`: its own
try/except returns a one-field `{"error": str(e)}` record on failure, so a
read failure here never reaches the caller boundary. -/
def analyze_uncovered_linesJ (env : Env) (source_file : String)
    (uncovered_lines : List Int) : Json :=
  match env.readFile source_file with
  | .error e => Json.obj [("error", Json.str e)]
  | .ok content =>
    let uc := uncoveredEntries content uncovered_lines
    Json.obj [
      ("uncovered_lines", Json.arr (uc.map uncEntryJson)),
      ("total_uncovered", Json.int uncovered_lines.length),
      ("critical_lines", Json.arr
        ((uc.filter (fun e => is_critical_line e.2)).map uncEntryJson))]

/-- `_generate_coverage_suggestions(uncovered_analysis,
coverage_percentage)`. -/
def generate_coverage_suggestions (uncovered_analysis : Json)
    (coverage_percentage : ℚ) : List String :=
  (if coverage_percentage < 80 then
    ["Coverage is low (" ++ fmt1 coverage_percentage ++
      "%). Focus on critical uncovered lines."] else []) ++
  (if (uncovered_analysis.getArr "critical_lines").isEmpty then []
   else ["Found " ++ toString (uncovered_analysis.getArr "critical_lines").length ++
      " critical uncovered lines"])

/-- `get_coverage_gaps(source_file, test_file, project_root)`. -/
def get_coverage_gapsJ (env : Env) (source_file test_file project_root : String) :
    Json :=
  match env.runCommand (gapsCommand env source_file test_file project_root) with
  | .error e => errObj e
  | .ok res =>
    if res.returncode ≠ 0 then
      errObj ("Test execution failed: " ++ res.stderr)
    else if env.pathExists (gapsReportPath source_file project_root) then
      match env.parseCoverage (gapsReportPath source_file project_root) source_file with
      | .error e => errObj e
      | .ok (covered_lines, uncovered_lines, coverage_percentage) =>
        let ua := analyze_uncovered_linesJ env source_file uncovered_lines
        Json.obj [
          ("coverage_percentage", Json.rat coverage_percentage),
          ("covered_lines", Json.arr (covered_lines.map Json.int)),
          ("uncovered_lines", Json.arr (uncovered_lines.map Json.int)),
          ("uncovered_analysis", ua),
          ("source_file", Json.str source_file),
          ("test_file", Json.str test_file),
          ("status", Json.str "success"),
          ("suggestions", Json.arr
            ((generate_coverage_suggestions ua coverage_percentage).map Json.str))]
    else errObj "Coverage report not generated"

/-! ### `analyze_test_structure` -/

/-- Line loop of the private `_analyze_test_structure`: collect
`(line, name)` pairs for test classes and test functions. -/
def analyzeTestLines : Nat → List String →
    List (Nat × String) × List (Nat × String)
  | _, [] => ([], [])
  | i, line :: rest =>
    let (cs, fns) := analyzeTestLines (i + 1) rest
    let stripped := pyStrip line
    if sStartsWith stripped "class " && pyContains stripped "Test" &&
        pyContains stripped ":" then
      let nm := pyStrip ((sSplitOn ((sSplitOn ((sSplitOn stripped "class ").getD 1 "")
        "(").getD 0 "") ":").getD 0 "")
      ((i, nm) :: cs, fns)
    else if sStartsWith stripped "def test_" && pyContains stripped ":" then
      let nm := pyStrip ((sSplitOn ((sSplitOn stripped "def ").getD 1 "") "(").getD 0 "")
      (cs, (i, nm) :: fns)
    else (cs, fns)

/-- The record the private `_analyze_test_structure` returns. -/
structure TestAnalysis where
  test_classes : List (Nat × String)
  test_functions : List (Nat × String)
  file_type : String

/-- `_analyze_test_structure(test_content, test_file)`. -/
def analyzeTestStructure (test_content test_file : String) : TestAnalysis :=
  let (cs, fns) := analyzeTestLines 1 (sSplitOn test_content "\n")
  { test_classes := cs, test_functions := fns, file_type := pathSuffix test_file }

/-- JSON form of the test-analysis record (`total_tests` is the number of
test functions). -/
def TestAnalysis.toJson (ta : TestAnalysis) : Json :=
  Json.obj [
    ("test_classes", Json.arr (ta.test_classes.map (fun e =>
      Json.obj [("line", Json.int e.1), ("name", Json.str e.2)]))),
    ("test_functions", Json.arr (ta.test_functions.map (fun e =>
      Json.obj [("line", Json.int e.1), ("name", Json.str e.2)]))),
    ("total_tests", Json.int ta.test_functions.length),
    ("file_type", Json.str ta.file_type)]

/-- `_find_source_file_for_test(test_file, project_root)` (the
`project_root` argument is unused in the source as well). -/
def find_source_file_for_test (env : Env) (test_file project_root : String) :
    Option String :=
  let test_name := pathStem test_file
  let possible_names := [sReplace test_name "test_" "",
    sReplace (sReplace test_name "test_" "") "Test" "",
    sReplace test_name "Test" ""]
  let dir := pathParent (pathParent test_file)
  (possible_names.flatMap (fun nm =>
    [".py", ".js", ".ts", ".java"].map (fun ext => pathJoinP dir (nm ++ ext)))).find?
    (fun p => env.pathExists p)

/-- `_generate_test_structure_suggestions(test_analysis)`. -/
def generate_test_structure_suggestions (ta : TestAnalysis) : List String :=
  if ta.test_functions.length < 3 then
    ["Very few tests found. Consider adding more comprehensive test cases."]
  else []

/-- `analyze_test_structure(test_file, project_root)`. -/
def analyze_test_structureJ (env : Env) (test_file project_root : String) : Json :=
  if env.pathExists test_file = false then
    errObj ("Test file " ++ test_file ++ " does not exist")
  else
    match env.readFile test_file with
    | .error e => errObj e
    | .ok content =>
      let ta := analyzeTestStructure content test_file
      let sf := find_source_file_for_test env test_file project_root
      Json.obj [
        ("test_file", Json.str test_file),
        ("source_file", match sf with | some s => Json.str s | none => Json.null),
        ("test_analysis", ta.toJson),
        ("project_root", Json.str project_root),
        ("status", Json.str "success"),
        ("suggestions", Json.arr
          ((generate_test_structure_suggestions ta).map Json.str))]

/-! ### `get_test_generation_context`

The composite handler parses the three inner JSON strings back with
`json.loads`; at the value level that round trip is the identity, so the
embedding consumes the inner `Json` values directly. -/

/-- Render the `line` field of an entry for an f-string (the entries built
by this fragment always carry the key; Python would raise `KeyError` on a
missing key, which never happens for these payloads). -/
def jIntField (e : Json) (key : String) : String :=
  match e.find key with
  | some (.int n) => toString n
  | some (.rat q) => pyFloatStr q
  | _ => ""

/-- Render a string field of an entry for an f-string. -/
def jStrField (e : Json) (key : String) : String :=
  match e.find key with
  | some (.str s) => s
  | _ => ""

/-- `_generate_test_generation_guidance(code_context, coverage_gaps,
test_structure)` (the third argument is unused in the source as well). -/
def generate_test_generation_guidance (code_context coverage_gaps
    _test_structure : Json) : Json :=
  let focus_areas :=
    if coverage_gaps.getStr "status" = some "success" then
      let ua := (coverage_gaps.find "uncovered_analysis").getD (Json.obj [])
      (ua.getArr "critical_lines").map (fun e =>
        "Line " ++ jIntField e "line" ++ ": " ++ jStrField e "content")
    else []
  let test_priorities :=
    if code_context.getStr "status" = some "success" then
      let fa := (code_context.find "file_analysis").getD (Json.obj [])
      ((fa.getArr "classes").map (fun e => "Test class: " ++ jStrField e "name")) ++
      ((fa.getArr "functions").map (fun e => "Test function: " ++ jStrField e "name"))
    else []
  Json.obj [
    ("focus_areas", Json.arr (focus_areas.map Json.str)),
    ("test_priorities", Json.arr (test_priorities.map Json.str)),
    ("suggested_approaches", Json.arr [])]

/-- `get_test_generation_context(source_file, test_file, project_root)`:
runs the three inner handlers sequentially (only the first one touches the
server state) and wraps their payloads; its own `status` is always
`"success"` because parsing the inner strings cannot fail. -/
def get_test_generation_contextJ (env : Env) (st : ServerState)
    (source_file test_file project_root : String) : Json × ServerState :=
  let code_context := (analyze_code_contextJ env st source_file project_root).1
  let st2 := (analyze_code_contextJ env st source_file project_root).2
  let coverage_gaps := get_coverage_gapsJ env source_file test_file project_root
  let test_structure := analyze_test_structureJ env test_file project_root
  (Json.obj [
    ("code_context", code_context),
    ("coverage_gaps", coverage_gaps),
    ("test_structure", test_structure),
    ("generation_guidance", generate_test_generation_guidance
      code_context coverage_gaps test_structure),
    ("status", Json.str "success")], st2)

/-! ### `validate_test_coverage` -/

/-- `_analyze_test_quality(test_file, source_file)`: its own try/except
returns a one-field `{"error": str(e)}` record on failure. -/
def analyze_test_qualityJ (env : Env) (test_file : String) : Json :=
  match env.readFile test_file with
  | .error e => Json.obj [("error", Json.str e)]
  | .ok content =>
    let lines := sSplitOn content "\n"
    let total_lines := lines.length
    let comment_lines := (lines.filter (fun l => sStartsWith (pyStrip l) "#")).length
    let empty_lines := (lines.filter (fun l => pyStrip l = "")).length
    let code_lines : Int := (total_lines : Int) - comment_lines - empty_lines
    Json.obj [
      ("total_lines", Json.int total_lines),
      ("code_lines", Json.int code_lines),
      ("comment_lines", Json.int comment_lines),
      ("empty_lines", Json.int empty_lines),
      ("test_density", if 0 < total_lines then
        Json.rat ((code_lines : ℚ) / (total_lines : ℚ)) else Json.int 0)]

/-- `_generate_improvement_suggestions(coverage_gaps, test_quality)`. -/
def generate_improvement_suggestions (coverage_gaps test_quality : Json) :
    List String :=
  (if coverage_gaps.getStr "status" = some "success" then
    (if coverage_gaps.getNum "coverage_percentage" 0 < 90 then
      ["Increase coverage from " ++
        fmt1 (coverage_gaps.getNum "coverage_percentage" 0) ++ "% to 90%+"]
     else [])
   else []) ++
  (if test_quality.getNum "test_density" 0 < 7 / 10 then
    ["Improve test density by adding more test cases"] else [])

/-- `validate_test_coverage(source_file, test_file, project_root)`: on an
inner error payload the very string returned by `get_coverage_gaps` is
returned unchanged. -/
def validate_test_coverageJ (env : Env) (source_file test_file project_root : String) :
    Json :=
  let coverage_gaps := get_coverage_gapsJ env source_file test_file project_root
  if coverage_gaps.getStr "status" = some "error" then coverage_gaps
  else
    let test_quality := analyze_test_qualityJ env test_file
    Json.obj [
      ("coverage_analysis", coverage_gaps),
      ("test_quality", test_quality),
      ("improvement_suggestions", Json.arr
        ((generate_improvement_suggestions coverage_gaps test_quality).map Json.str)),
      ("status", Json.str "success")]

/-! ### `auto_generate_tests_for_coverage` -/

/-- Integer elements of an array field (the fragment only ever stores the
parser's line-number lists there). -/
def Json.getIntArr (j : Json) (key : String) : List Int :=
  (j.getArr key).filterMap (fun e =>
    match e with | .int n => some n | _ => none)

/-- `_generate_test_suggestions_for_coverage(...)` (the `source_file`,
`uncovered_lines`, `current_coverage` and `target_coverage` arguments are
unused in the source body as well). -/
def generate_test_suggestions_for_coverage (_source_file : String)
    (_uncovered_lines : List Int) (uncovered_analysis : Json)
    (_current_coverage _target_coverage : ℚ) : List String :=
  ((uncovered_analysis.getArr "critical_lines").take 5).map (fun e =>
    "Test line " ++ jIntField e "line" ++ ": " ++ jStrField e "content") ++
  (uncovered_analysis.getArr "uncovered_functions").map (fun e =>
    "Add test for function: " ++ jStrField e "name") ++
  (uncovered_analysis.getArr "uncovered_classes").map (fun e =>
    "Add test for class: " ++ jStrField e "name") ++
  ["Add tests for edge cases and error conditions",
   "Add tests for boundary conditions"]

/-- The per-language guidance record of `_create_test_generation_prompt`
(the source dict key `test_prefix` is the `marker` field here). -/
structure LangInfo where
  framework : String
  imports : String
  marker : String
  assertions : String
  mocking : String

/-- The `language_guidance` table. -/
def languageGuidance : Language → LangInfo
  | .python =>
    { framework := "pytest",
      imports := "import pytest\nfrom unittest.mock import Mock, patch",
      marker := "test_", assertions := "assert statements",
      mocking := "unittest.mock or pytest-mock" }
  | .java =>
    { framework := "JUnit 5",
      imports := "import org.junit.jupiter.api.Test;\nimport static org.junit.jupiter.api.Assertions.*;",
      marker := "@Test", assertions := "assertEquals, assertTrue, assertThrows",
      mocking := "Mockito" }
  | .javascript =>
    { framework := "Jest",
      imports := "import \x7b test, expect, jest \x7d from \x27@jest/globals\x27;",
      marker := "test(", assertions := "expect().toBe(), expect().toThrow()",
      mocking := "jest.mock() and jest.fn()" }
  | .typescript =>
    { framework := "Jest with TypeScript",
      imports := "import \x7b test, expect, jest \x7d from \x27@jest/globals\x27;",
      marker := "test(", assertions := "expect().toBe(), expect().toThrow()",
      mocking := "jest.mock() and jest.fn()" }
  | .csharp =>
    { framework := "xUnit", imports := "using Xunit;\nusing Moq;",
      marker := "[Fact]", assertions := "Assert.Equal, Assert.True, Assert.Throws",
      mocking := "Moq framework" }
  | .rust =>
    { framework := "Rust built-in test framework",
      imports := "#[cfg(test)]\nuse super::*;", marker := "#[test]",
      assertions := "assert_eq!, assert!, panic\x21", mocking := "mockall crate" }

/-- The C++ override record built when the file extension is C-like. -/
def cppLangInfo : LangInfo :=
  { framework := "Google Test (gtest)",
    imports := "#include <gtest/gtest.h>\n#include <gmock/gmock.h>",
    marker := "TEST(", assertions := "EXPECT_EQ, EXPECT_TRUE, EXPECT_THROW",
    mocking := "Google Mock (gmock)" }

/-- `_create_test_generation_prompt(source_file, test_file,
uncovered_lines, test_suggestions)`. -/
def create_test_generation_prompt (source_file test_file : String)
    (uncovered_lines : List Int) (test_suggestions : List String) : String :=
  let langTagStr := if isCppFile source_file then "cpp"
    else (detect_language source_file).tag
  let info := if isCppFile source_file then cppLangInfo
    else languageGuidance (detect_language source_file)
  "\n# Test Generation Task (" ++ sToUpper langTagStr ++ ")\n\n## Source File: " ++
  source_file ++ "\n## Test File: " ++ test_file ++ "\n## Language: " ++
  langTagStr ++ "\n## Test Framework: " ++ info.framework ++
  "\n\n## Current Test Coverage Issues:\n- Uncovered lines: " ++
  toString uncovered_lines.length ++ " lines\n- Focus areas: " ++
  String.intercalate ", " (test_suggestions.take 3) ++
  "\n\n## Language-Specific Requirements:\n- Framework: " ++ info.framework ++
  "\n- Imports: " ++ info.imports ++ "\n- Test prefix: " ++ info.marker ++
  "\n- Assertions: " ++ info.assertions ++ "\n- Mocking: " ++ info.mocking ++
  "\n\n## General Requirements:\n1. Generate comprehensive test cases to cover the uncovered lines\n2. Focus on critical functionality and edge cases\n3. Ensure tests are well-structured and maintainable\n4. Use appropriate mocking and test fixtures\n5. Follow " ++
  info.framework ++
  " best practices\n\n## Test Generation Guidelines:\n- Test both happy path and error scenarios\n- Include boundary condition tests\n- Mock external dependencies appropriately\n- Use descriptive test names\n- Add proper assertions and error messages\n- Follow " ++
  langTagStr ++
  " coding conventions\n\nPlease generate the test code that addresses these coverage gaps using " ++
  info.framework ++ ".\n"

/-- `auto_generate_tests_for_coverage(source_file, test_file, project_root,
target_coverage=90.0)`. -/
def auto_generate_tests_for_coverageJ (env : Env)
    (source_file test_file project_root : String) (target_coverage : ℚ) : Json :=
  let coverage_gaps := get_coverage_gapsJ env source_file test_file project_root
  if coverage_gaps.getStr "status" = some "error" then coverage_gaps
  else
    let current_coverage := coverage_gaps.getNum "coverage_percentage" 0
    if target_coverage ≤ current_coverage then
      Json.obj [
        ("status", Json.str "success"),
        ("message", Json.str ("Target coverage " ++ pyFloatStr target_coverage ++
          "% already achieved (current: " ++ pyFloatStr current_coverage ++ "%)")),
        ("current_coverage", Json.rat current_coverage),
        ("target_coverage", Json.rat target_coverage),
        ("improvement", Json.int 0)]
    else
      let uncovered_lines := coverage_gaps.getIntArr "uncovered_lines"
      let uncovered_analysis :=
        (coverage_gaps.find "uncovered_analysis").getD (Json.obj [])
      let test_suggestions := generate_test_suggestions_for_coverage source_file
        uncovered_lines uncovered_analysis current_coverage target_coverage
      let test_generation_prompt := create_test_generation_prompt source_file
        test_file uncovered_lines test_suggestions
      Json.obj [
        ("status", Json.str "success"),
        ("current_coverage", Json.rat current_coverage),
        ("target_coverage", Json.rat target_coverage),
        ("coverage_gap", Json.rat (target_coverage - current_coverage)),
        ("uncovered_lines_count", Json.int uncovered_lines.length),
        ("test_suggestions", Json.arr (test_suggestions.map Json.str)),
        ("test_generation_prompt", Json.str test_generation_prompt),
        ("message", Json.str ("Generated test suggestions to improve coverage from " ++
          pyFloatStr current_coverage ++ "% to " ++ pyFloatStr target_coverage ++ "%"))]

/-! ### Serialization (`json.dumps`)

Field order is preserved (Python dictionaries keep insertion order).  The
indentation produced by `indent=2` is immaterial to every claim, so the
serializer renders compactly; what matters is that each operation returns
the serialization of its payload value and that `validate_test_coverage` /
`auto_generate_tests_for_coverage` hand back the inner serialized string
itself on an inner error. -/

/-- JSON string escaping for the characters that occur here. -/
def escChar (c : Char) : String :=
  if c = '\"' then "\\\""
  else if c = '\\' then "\\\\"
  else if c = '\n' then "\\n"
  else if c = '\t' then "\\t"
  else if c = '\r' then "\\r"
  else String.singleton c

/-- Escape a whole string. -/
def escapeJson (s : String) : String :=
  String.join (s.data.map escChar)

mutual

/-- Serialize a JSON value. -/
def Json.dumps : Json → String
  | .null => "null"
  | .bool b => if b then "true" else "false"
  | .int n => toString n
  | .rat q => pyFloatStr q
  | .str s => "\"" ++ escapeJson s ++ "\""
  | .arr xs => "[" ++ dumpsList xs ++ "]"
  | .obj fs => "\x7b" ++ dumpsFields fs ++ "\x7d"

/-- Serialize array elements. -/
def dumpsList : List Json → String
  | [] => ""
  | [x] => Json.dumps x
  | x :: y :: xs => Json.dumps x ++ ", " ++ dumpsList (y :: xs)

/-- Serialize object fields. -/
def dumpsFields : List (String × Json) → String
  | [] => ""
  | [(k, v)] => "\"" ++ escapeJson k ++ "\": " ++ Json.dumps v
  | (k, v) :: f :: fs =>
    "\"" ++ escapeJson k ++ "\": " ++ Json.dumps v ++ ", " ++ dumpsFields (f :: fs)

end

/-! ### The six remote operations as string-returning handlers -/

/-- `analyze_code_context` as registered: returns the serialized payload
and the updated server state. -/
def analyze_code_context (env : Env) (st : ServerState)
    (source_file project_root : String) : String × ServerState :=
  let r := analyze_code_contextJ env st source_file project_root
  (r.1.dumps, r.2)

/-- `get_coverage_gaps` as registered. -/
def get_coverage_gaps (env : Env) (source_file test_file project_root : String) :
    String :=
  (get_coverage_gapsJ env source_file test_file project_root).dumps

/-- `analyze_test_structure` as registered. -/
def analyze_test_structure (env : Env) (test_file project_root : String) : String :=
  (analyze_test_structureJ env test_file project_root).dumps

/-- `get_test_generation_context` as registered. -/
def get_test_generation_context (env : Env) (st : ServerState)
    (source_file test_file project_root : String) : String × ServerState :=
  let r := get_test_generation_contextJ env st source_file test_file project_root
  (r.1.dumps, r.2)

/-- `validate_test_coverage` as registered.  When the inner coverage
payload carries an error status the handler returns the inner string
itself (`return coverage_gaps_str`), which is the serialization of the
inner value. -/
def validate_test_coverage (env : Env) (source_file test_file project_root : String) :
    String :=
  (validate_test_coverageJ env source_file test_file project_root).dumps

/-- `auto_generate_tests_for_coverage` as registered (same remark about the
inner error string). -/
def auto_generate_tests_for_coverage (env : Env)
    (source_file test_file project_root : String) (target_coverage : ℚ) : String :=
  (auto_generate_tests_for_coverageJ env source_file test_file project_root
    target_coverage).dumps

/-! ## Shared helper lemmas -/

/-- A payload whose `status` field is `"success"` or `"error"`. -/
abbrev statusOk (j : Json) : Prop :=
  j.getStr "status" = some "success" ∨ j.getStr "status" = some "error"

/-- A payload that either carries a success status or is exactly the
two-field error record produced by a catch-all boundary. -/
abbrev errShape (j : Json) : Prop :=
  j.getStr "status" = some "success" ∨ ∃ m, j = errObj m

theorem statusOk_of_errShape {j : Json} (h : errShape j) : statusOk j := by
  rcases h with h | ⟨m, rfl⟩
  · exact Or.inl h
  · exact Or.inr rfl

theorem gaps_errShape (env : Env) (s t r : String) :
    errShape (get_coverage_gapsJ env s t r) := by
  simp only [errShape, get_coverage_gapsJ]
  split
  · exact Or.inr ⟨_, rfl⟩
  · split
    · exact Or.inr ⟨_, rfl⟩
    · split
      · split
        · exact Or.inr ⟨_, rfl⟩
        · exact Or.inl rfl
      · exact Or.inr ⟨_, rfl⟩

theorem accPayload_errShape (env : Env) (s r : String) (d : Language)
    (cf : List String) : errShape (accPayload env s r d cf) := by
  simp only [errShape, accPayload]
  split
  · exact Or.inr ⟨_, rfl⟩
  · split
    · exact Or.inr ⟨_, rfl⟩
    · exact Or.inl rfl

theorem acc_errShape (env : Env) (st : ServerState) (s r : String) :
    errShape (analyze_code_contextJ env st s r).1 :=
  accPayload_errShape env s r (detect_language s)
    (accContextFiles env (accState env st s r) s r (detect_language s))

theorem ats_errShape (env : Env) (t r : String) :
    errShape (analyze_test_structureJ env t r) := by
  simp only [errShape, analyze_test_structureJ]
  split
  · exact Or.inr ⟨_, rfl⟩
  · rcases env.readFile t with m | content
    · exact Or.inr ⟨m, rfl⟩
    · exact Or.inl rfl

theorem gtc_errShape (env : Env) (st : ServerState) (s t r : String) :
    errShape (get_test_generation_contextJ env st s t r).1 :=
  Or.inl rfl

theorem vtc_errShape (env : Env) (s t r : String) :
    errShape (validate_test_coverageJ env s t r) := by
  simp only [errShape, validate_test_coverageJ]
  split
  · rename_i h
    rcases gaps_errShape env s t r with hs | hE
    · rw [hs] at h; exact absurd h (by decide)
    · exact Or.inr hE
  · exact Or.inl rfl

theorem auto_errShape (env : Env) (s t r : String) (target : ℚ) :
    errShape (auto_generate_tests_for_coverageJ env s t r target) := by
  simp only [errShape, auto_generate_tests_for_coverageJ]
  split
  · rename_i h
    rcases gaps_errShape env s t r with hs | hE
    · rw [hs] at h; exact absurd h (by decide)
    · exact Or.inr hE
  · split
    · exact Or.inl rfl
    · exact Or.inl rfl

/-! ## Claim theorems -/

/-- C5: every one of the six remote operations, on every input, returns the
serialization of a payload whose `status` field is `"success"` or
`"error"` - never anything else and never a payload without a `status`
field. -/
theorem C5_status_discriminator (env : Env) (st : ServerState) (s t r : String)
    (target : ℚ) :
    (statusOk (analyze_code_contextJ env st s r).1 ∧
      (analyze_code_context env st s r).1 = (analyze_code_contextJ env st s r).1.dumps) ∧
    (statusOk (get_coverage_gapsJ env s t r) ∧
      get_coverage_gaps env s t r = (get_coverage_gapsJ env s t r).dumps) ∧
    (statusOk (analyze_test_structureJ env t r) ∧
      analyze_test_structure env t r = (analyze_test_structureJ env t r).dumps) ∧
    (statusOk (get_test_generation_contextJ env st s t r).1 ∧
      (get_test_generation_context env st s t r).1 =
        (get_test_generation_contextJ env st s t r).1.dumps) ∧
    (statusOk (validate_test_coverageJ env s t r) ∧
      validate_test_coverage env s t r = (validate_test_coverageJ env s t r).dumps) ∧
    (statusOk (auto_generate_tests_for_coverageJ env s t r target) ∧
      auto_generate_tests_for_coverage env s t r target =
        (auto_generate_tests_for_coverageJ env s t r target).dumps) :=
  ⟨⟨statusOk_of_errShape (acc_errShape env st s r), rfl⟩,
   ⟨statusOk_of_errShape (gaps_errShape env s t r), rfl⟩,
   ⟨statusOk_of_errShape (ats_errShape env t r), rfl⟩,
   ⟨statusOk_of_errShape (gtc_errShape env st s t r), rfl⟩,
   ⟨statusOk_of_errShape (vtc_errShape env s t r), rfl⟩,
   ⟨statusOk_of_errShape (auto_errShape env s t r target), rfl⟩⟩

/-- C4 (amended): no exception escapes a handler (the embedded handlers are
total), and every payload either carries a success status or is exactly the
two-field record `{"status": "error", "error": message}` built at the outer
catch-all boundary; exceptions inside `_analyze_uncovered_lines` and
`_analyze_test_quality` are caught locally into a one-field `{"error":
message}` record embedded in a success payload (see the counterexample for
the claim as stated). -/
theorem C4_error_record_shape (env : Env) (st : ServerState) (s t r : String)
    (target : ℚ) :
    errShape (analyze_code_contextJ env st s r).1 ∧
    errShape (get_coverage_gapsJ env s t r) ∧
    errShape (analyze_test_structureJ env t r) ∧
    errShape (get_test_generation_contextJ env st s t r).1 ∧
    errShape (validate_test_coverageJ env s t r) ∧
    errShape (auto_generate_tests_for_coverageJ env s t r target) :=
  ⟨acc_errShape env st s r, gaps_errShape env s t r, ats_errShape env t r,
   gtc_errShape env st s t r, vtc_errShape env s t r, auto_errShape env s t r target⟩

/-! ## Concrete environments for evaluations -/

/-- An environment in which every collaborator call succeeds. -/
def baseEnv : Env :=
  { readFile := fun _ => .ok "",
    pathExists := fun _ => true,
    runCommand := fun _ => .ok { returncode := 0, stderr := "" },
    parseCoverage := fun _ _ => .ok ([], [], 100),
    initLsp := fun _ _ => .ok 0,
    findContext := fun _ _ _ _ => .ok [],
    pythonExe := "python3" }

/-- All collaborators succeed and the source file holds the two-line
program of the spec. -/
def envTwoLine : Env :=
  { baseEnv with readFile := fun _ => .ok "class Foo:\n    def bar(self): pass" }

/-- C1: on the two-line input `"class Foo:\n    def bar(self): pass"` the
structural analysis does not report the class `Foo` and the function `bar`;
it aborts with `IndexError("no such group")` raised by
`class_match.group(-1)` on the first line, and `analyze_code_context`
therefore returns the error record with that message. -/
theorem C1_two_line_analysis_raises :
    analyzeFileStructureMultilang "class Foo:\n    def bar(self): pass" "foo.py"
      Language.python = .error "no such group" ∧
    (analyze_code_contextJ envTwoLine initialState "foo.py" "/proj").1 =
      errObj "no such group" :=
  ⟨rfl, rfl⟩

/-- All collaborators succeed, with distinguished return values so that
their success is visible in the statement of `C3`. -/
def envC3 : Env :=
  { baseEnv with
    readFile := fun _ => .ok "class Foo:\n    def bar(self): pass",
    initLsp := fun _ _ => .ok 7,
    findContext := fun _ _ _ _ => .ok ["ctx.py"] }

/-- C3: an input on which every collaborator call (file read,
language-server initialization, context search) succeeds, yet
`analyze_code_context` returns a payload whose status is `"error"` (the
`group(-1)` slip in the structural analysis, not a collaborator, fails). -/
theorem C3_collaborators_ok_yet_error :
    envC3.readFile "foo.py" = .ok "class Foo:\n    def bar(self): pass" ∧
    envC3.initLsp "/proj" "python" = .ok 7 ∧
    envC3.findContext 7 "/proj" "python" "foo.py" = .ok ["ctx.py"] ∧
    (analyze_code_contextJ envC3 initialState "foo.py" "/proj").1.getStr "status" =
      some "error" :=
  ⟨rfl, rfl, rfl, rfl⟩

/-- Language-server initialization fails; everything else succeeds. -/
def envLspFail : Env :=
  { baseEnv with initLsp := fun _ _ => .error "lsp down" }

/-- The subprocess spawn itself fails; everything else succeeds. -/
def envRunFail : Env :=
  { baseEnv with runCommand := fun _ => .error "spawn failure" }

/-- The coverage parser raises an exception whose textual message is
empty. -/
def envEmptyMsg : Env :=
  { baseEnv with parseCoverage := fun _ _ => .error "" }

/-- C2 (counterexample): three failures that refute the claim as stated.
A language-server initialization failure inside `analyze_code_context`
yields a success payload; a subprocess failure inside
`get_test_generation_context` yields a success payload; and a collaborator
exception with an empty textual message yields an error payload whose
message field is empty. -/
theorem C2_counterexample :
    (envLspFail.initLsp "/p" "python" = .error "lsp down" ∧
      (analyze_code_contextJ envLspFail initialState "a.py" "/p").1.getStr "status" =
        some "success") ∧
    (envRunFail.runCommand (gapsCommand envRunFail "a.py" "t.py" "/p") =
        .error "spawn failure" ∧
      (get_test_generation_contextJ envRunFail initialState "a.py" "t.py" "/p").1.getStr
        "status" = some "success") ∧
    (envEmptyMsg.parseCoverage (gapsReportPath "a.py" "/p") "a.py" = .error "" ∧
      get_coverage_gapsJ envEmptyMsg "a.py" "t.py" "/p" = errObj "") :=
  ⟨⟨rfl, rfl⟩, ⟨rfl, rfl⟩, ⟨rfl, rfl⟩⟩

/-- Source reads fail (with the parser succeeding), so the exception is
raised inside `_analyze_uncovered_lines`. -/
def envReadFail : Env :=
  { baseEnv with
    readFile := fun _ => .error "io fail",
    parseCoverage := fun _ _ => .ok ([1], [2], 50) }

/-- C4 (counterexample): an exception raised inside a handler (the file
read inside `_analyze_uncovered_lines` during `get_coverage_gaps`) is not
converted into a two-field error record: the handler returns a success
payload embedding a one-field `{"error": ...}` record. -/
theorem C4_counterexample :
    envReadFail.readFile "src.py" = .error "io fail" ∧
    (get_coverage_gapsJ envReadFail "src.py" "t.py" "/p").getStr "status" =
      some "success" ∧
    (get_coverage_gapsJ envReadFail "src.py" "t.py" "/p").find "uncovered_analysis" =
      some (Json.obj [("error", Json.str "io fail")]) :=
  ⟨rfl, rfl, rfl⟩

/-- C2 (amended): every failure in file access, subprocess execution or a
collaborator call that reaches a handler catch-all boundary produces the
payload `{"status": "error", "error": message}` carrying the failure
message (hence non-empty whenever the message is, and always non-empty for
a failed test run or a missing coverage report); the exceptions are the
failures the handlers deliberately degrade (language-server initialization
and context search in `analyze_code_context`, the local reads of
`_analyze_uncovered_lines` and `_analyze_test_quality`, and the inner
payloads aggregated by `get_test_generation_context`), shown in the
counterexample. -/
theorem C2_error_payloads (env : Env) (st : ServerState) (s t r : String)
    (target : ℚ) :
    (∀ m, env.readFile s = .error m →
      (analyze_code_contextJ env st s r).1 = errObj m) ∧
    (∀ m, env.runCommand (gapsCommand env s t r) = .error m →
      get_coverage_gapsJ env s t r = errObj m) ∧
    (∀ res, env.runCommand (gapsCommand env s t r) = .ok res →
      res.returncode ≠ 0 →
      get_coverage_gapsJ env s t r =
        errObj ("Test execution failed: " ++ res.stderr)) ∧
    (∀ res, env.runCommand (gapsCommand env s t r) = .ok res →
      res.returncode = 0 → env.pathExists (gapsReportPath s r) = false →
      get_coverage_gapsJ env s t r = errObj "Coverage report not generated") ∧
    (∀ res m, env.runCommand (gapsCommand env s t r) = .ok res →
      res.returncode = 0 → env.pathExists (gapsReportPath s r) = true →
      env.parseCoverage (gapsReportPath s r) s = .error m →
      get_coverage_gapsJ env s t r = errObj m) ∧
    (env.pathExists t = false →
      analyze_test_structureJ env t r =
        errObj ("Test file " ++ t ++ " does not exist")) ∧
    (∀ m, env.pathExists t = true → env.readFile t = .error m →
      analyze_test_structureJ env t r = errObj m) ∧
    (∀ m, get_coverage_gapsJ env s t r = errObj m →
      validate_test_coverageJ env s t r = errObj m ∧
      auto_generate_tests_for_coverageJ env s t r target = errObj m) := by
  refine ⟨?_, ?_, ?_, ?_, ?_, ?_, ?_, ?_⟩
  · intro m hm
    simp only [analyze_code_contextJ, accPayload, hm]
  · intro m hm
    simp only [get_coverage_gapsJ, hm]
  · intro res hres hrc
    simp only [get_coverage_gapsJ, hres]
    rw [if_pos hrc]
  · intro res hres hrc hpe
    simp only [get_coverage_gapsJ, hres]
    rw [if_neg (by simp [hrc]), if_neg (by simp [hpe])]
  · intro res m hres hrc hpe hpar
    simp only [get_coverage_gapsJ, hres]
    rw [if_neg (by simp [hrc]), if_pos hpe]
    simp only [hpar]
  · intro hpe
    simp only [analyze_test_structureJ]
    rw [if_pos hpe]
  · intro m hpt hrf
    simp only [analyze_test_structureJ, hrf]
    rw [if_neg (by simp [hpt])]
  · intro m hg
    constructor
    · simp only [validate_test_coverageJ, hg]
      rw [if_pos (show (errObj m).getStr "status" = some "error" from rfl)]
    · simp only [auto_generate_tests_for_coverageJ, hg]
      rw [if_pos (show (errObj m).getStr "status" = some "error" from rfl)]

/-- The read of the source file fails. -/
def envC2w : Env :=
  { baseEnv with readFile := fun _ => .error "read failed" }

/-- Witness for `C2_error_payloads` at a concrete failing read. -/
theorem C2_error_payloads_witness :
    (analyze_code_contextJ envC2w initialState "a.py" "/r").1 =
      errObj "read failed" :=
  (C2_error_payloads envC2w initialState "a.py" "t.py" "/r" 90).1 "read failed" rfl

/-- Modelled from the spec: the external coverage-report parser (the
`CoverageProcessor` collaborator, not part of this fragment) returns a
covered-line set, an uncovered-line set "and a percentage"; a percentage is
a value between 0 and 100. -/
def percentageContract (env : Env) : Prop :=
  ∀ report_path src_path covered uncovered pct,
    env.parseCoverage report_path src_path = .ok (covered, uncovered, pct) →
    0 ≤ pct ∧ pct ≤ 100

/-- C6: whenever the collaborator honours its percentage contract and
`get_coverage_gaps` returns a success payload, the `coverage_percentage`
field of that payload is a number in `[0, 100]` (the handler passes the
parser value through unchanged). -/
theorem C6_percentage_in_range (env : Env) (s t r : String)
    (hc : percentageContract env)
    (hs : (get_coverage_gapsJ env s t r).getStr "status" = some "success") :
    ∃ q, (get_coverage_gapsJ env s t r).find "coverage_percentage" =
      some (Json.rat q) ∧ 0 ≤ q ∧ q ≤ 100 := by
  revert hs
  simp only [get_coverage_gapsJ]
  split
  · intro hs
    exact absurd (show (some "error" : Option String) = some "success" from hs)
      (by decide)
  · split
    · intro hs
      exact absurd (show (some "error" : Option String) = some "success" from hs)
        (by decide)
    · split
      · split
        · intro hs
          exact absurd (show (some "error" : Option String) = some "success" from hs)
            (by decide)
        · rename_i covered uncovered pct heq
          intro _
          exact ⟨pct, rfl, hc _ _ _ _ _ heq⟩
      · intro hs
        exact absurd (show (some "error" : Option String) = some "success" from hs)
          (by decide)

/-- The parser reports 75 percent. -/
def envC6 : Env :=
  { baseEnv with parseCoverage := fun _ _ => .ok ([1], [2], 75) }

/-- Witness for `C6_percentage_in_range` at a concrete environment. -/
theorem C6_percentage_witness :
    ∃ q, (get_coverage_gapsJ envC6 "a.py" "t.py" "/r").find "coverage_percentage" =
      some (Json.rat q) ∧ 0 ≤ q ∧ q ≤ 100 :=
  C6_percentage_in_range envC6 "a.py" "t.py" "/r"
    (by
      intro rp sp covered uncovered pct h
      have h2 : (Except.ok ([1], [2], (75 : ℚ)) :
          Except String (List Int × List Int × ℚ)) = .ok (covered, uncovered, pct) := h
      simp only [Except.ok.injEq, Prod.mk.injEq] at h2
      obtain ⟨-, -, hpct⟩ := h2
      rw [← hpct]
      norm_num)
    rfl

/-- C7: the cached language-server handle is lazily replaced on cache-miss.
With a cached handle whose associated root equals the call root, the call
keeps the handle and root and its outcome does not depend on the
initializer at all; with no cached handle or a different root, a succeeding
initializer stores the fresh handle together with the call root. -/
theorem C7_lazy_lsp_cache :
    (∀ (env : Env) (st : ServerState) (s r : String) (h : Nat),
      st.lsp_server = some h → st.project_root = some r →
      (analyze_code_contextJ env st s r).2.lsp_server = some h ∧
      (analyze_code_contextJ env st s r).2.project_root = some r ∧
      ∀ f, analyze_code_contextJ { env with initLsp := f } st s r =
        analyze_code_contextJ env st s r) ∧
    (∀ (env : Env) (st : ServerState) (s r : String) (h2 : Nat),
      st.lsp_server = none ∨ st.project_root ≠ some r →
      env.initLsp r (detect_language s).tag = .ok h2 →
      (analyze_code_contextJ env st s r).2.lsp_server = some h2 ∧
      (analyze_code_contextJ env st s r).2.project_root = some r) := by
  constructor
  · intro env st s r h hl hr
    have hcond : ¬ (st.lsp_server = none ∨ st.project_root ≠ some r) := by
      simp [hl, hr]
    have hstate : ∀ (e : Env), accState e st s r =
        { st with project_language := (detect_language s).tag } := by
      intro e
      simp only [accState]
      rw [if_neg hcond]
    refine ⟨?_, ?_, ?_⟩
    · show (accState env st s r).lsp_server = some h
      rw [hstate]
      exact hl
    · show (accState env st s r).project_root = some r
      rw [hstate]
      exact hr
    · intro f
      show (accPayload { env with initLsp := f } s r (detect_language s)
          (accContextFiles { env with initLsp := f }
            (accState { env with initLsp := f } st s r) s r (detect_language s)),
        accState { env with initLsp := f } st s r) =
        (accPayload env s r (detect_language s)
          (accContextFiles env (accState env st s r) s r (detect_language s)),
        accState env st s r)
      rw [hstate, hstate]
      exact rfl
  · intro env st s r h2 hcond hinit
    have hstate : accState env st s r =
        { lsp_server := some h2, project_root := some r,
          project_language := (detect_language s).tag } := by
      simp only [accState]
      rw [if_pos hcond, hinit]
    constructor
    · show (accState env st s r).lsp_server = some h2
      rw [hstate]
    · show (accState env st s r).project_root = some r
      rw [hstate]

/-- A state holding a cached handle for root `/r`. -/
def stCacheHit : ServerState :=
  { lsp_server := some 5, project_root := some "/r", project_language := "python" }

/-- Witness for `C7_lazy_lsp_cache`: a cache hit keeps handle 5 and root
`/r`; from the initial state a call for `/q` stores the fresh handle 0 and
root `/q`. -/
theorem C7_lazy_lsp_cache_witness :
    ((analyze_code_contextJ baseEnv stCacheHit "a.py" "/r").2.lsp_server = some 5 ∧
     (analyze_code_contextJ baseEnv stCacheHit "a.py" "/r").2.project_root = some "/r") ∧
    ((analyze_code_contextJ baseEnv initialState "b.py" "/q").2.lsp_server = some 0 ∧
     (analyze_code_contextJ baseEnv initialState "b.py" "/q").2.project_root = some "/q") := by
  obtain ⟨ha, hb, -⟩ := C7_lazy_lsp_cache.1 baseEnv stCacheHit "a.py" "/r" 5 rfl rfl
  exact ⟨⟨ha, hb⟩, C7_lazy_lsp_cache.2 baseEnv initialState "b.py" "/q" 0 (Or.inl rfl) rfl⟩

/-- C8: language detection is total with a Python default - a path whose
lower-cased extension is not one of the twelve mapped extensions detects as
Python, so no operation fails merely because the extension is
unrecognized. -/
theorem C8_unmapped_extension_python (p : String)
    (h : sToLower (pathSuffix p) ∉
      ([".py", ".java", ".js", ".ts", ".cs", ".rs", ".cpp", ".cc", ".cxx",
        ".c", ".h", ".hpp"] : List String)) :
    detect_language p = Language.python := by
  simp only [List.mem_cons, List.not_mem_nil, or_false, not_or] at h
  obtain ⟨h1, h2, h3, h4, h5, h6, h7, h8, h9, h10, h11, h12⟩ := h
  simp only [detect_language, language_extensions, List.lookup,
    beq_eq_false_iff_ne.mpr h1, beq_eq_false_iff_ne.mpr h2,
    beq_eq_false_iff_ne.mpr h3, beq_eq_false_iff_ne.mpr h4,
    beq_eq_false_iff_ne.mpr h5, beq_eq_false_iff_ne.mpr h6,
    beq_eq_false_iff_ne.mpr h7, beq_eq_false_iff_ne.mpr h8,
    beq_eq_false_iff_ne.mpr h9, beq_eq_false_iff_ne.mpr h10,
    beq_eq_false_iff_ne.mpr h11, beq_eq_false_iff_ne.mpr h12]

/-- Witness for `C8_unmapped_extension_python` at the unmapped extension
`.xyz`. -/
theorem C8_unmapped_extension_witness :
    detect_language "lib/data.xyz" = Language.python ∧
    sToLower (pathSuffix "lib/data.xyz") = ".xyz" :=
  ⟨C8_unmapped_extension_python "lib/data.xyz" (by decide), rfl⟩

/-- C9: every entry kept by the uncovered-line analysis has a line number
inside `[1, n]` for the `n` lines read from the file, a non-empty stripped
content that is not a comment, and that content is exactly the stripped
text of the addressed line, so the guarded index is always in bounds;
numbers outside the range, blank lines and comment lines are dropped. -/
theorem C9_uncovered_entries_inbounds (content : String) (uncovered : List Int)
    (n : Int) (c : String)
    (hmem : (n, c) ∈ uncoveredEntries content uncovered) :
    1 ≤ n ∧ n ≤ ((pyReadlines content).length : Int) ∧ c ≠ "" ∧
    sStartsWith c "#" = false ∧
    c = pyStrip ((pyReadlines content).getD (n - 1).toNat "") := by
  simp only [uncoveredEntries, List.mem_filterMap] at hmem
  obtain ⟨m, hm, hf⟩ := hmem
  split at hf
  · rename_i h1
    split at hf
    · rename_i h2
      injection hf with hf2
      rw [Prod.mk.injEq] at hf2
      obtain ⟨rfl, rfl⟩ := hf2
      refine ⟨by omega, h1.2, h2.1, ?_, rfl⟩
      simpa using h2.2
    · exact Option.noConfusion hf
  · exact Option.noConfusion hf

/-- Witness for `C9_uncovered_entries_inbounds` at a concrete file and
uncovered list (line numbers 2, 3, 0, 9 and -1 are dropped by the
analysis, line 1 is kept). -/
theorem C9_uncovered_entries_witness :
    (1 : Int) ≤ 1 ∧
    (1 : Int) ≤ ((pyReadlines "x = 1\n\n# c\ny = 2\n").length : Int) ∧
    "x = 1" ≠ "" ∧ sStartsWith "x = 1" "#" = false ∧
    "x = 1" = pyStrip ((pyReadlines "x = 1\n\n# c\ny = 2\n").getD
      ((1 : Int) - 1).toNat "") :=
  C9_uncovered_entries_inbounds "x = 1\n\n# c\ny = 2\n" [1, 2, 3, 4, 0, 9, -1]
    1 "x = 1" (by decide)

/-- C10: when the inner `get_coverage_gaps` payload carries an error
status, `validate_test_coverage` and `auto_generate_tests_for_coverage`
return the inner payload unchanged - the very same serialized string - and
perform no further analysis. -/
theorem C10_inner_error_passthrough (env : Env) (s t r : String) (target : ℚ)
    (h : (get_coverage_gapsJ env s t r).getStr "status" = some "error") :
    validate_test_coverageJ env s t r = get_coverage_gapsJ env s t r ∧
    auto_generate_tests_for_coverageJ env s t r target =
      get_coverage_gapsJ env s t r ∧
    validate_test_coverage env s t r = get_coverage_gaps env s t r ∧
    auto_generate_tests_for_coverage env s t r target =
      get_coverage_gaps env s t r := by
  have h1 : validate_test_coverageJ env s t r = get_coverage_gapsJ env s t r := by
    simp only [validate_test_coverageJ]
    rw [if_pos h]
  have h2 : auto_generate_tests_for_coverageJ env s t r target =
      get_coverage_gapsJ env s t r := by
    simp only [auto_generate_tests_for_coverageJ]
    rw [if_pos h]
  exact ⟨h1, h2, congrArg Json.dumps h1, congrArg Json.dumps h2⟩

/-- The test run exits with a non-zero code. -/
def envC10 : Env :=
  { baseEnv with
    runCommand := fun _ => .ok { returncode := 1, stderr := "no tests ran" } }

/-- Witness for `C10_inner_error_passthrough` at a failing test run. -/
theorem C10_inner_error_witness :
    validate_test_coverageJ envC10 "a.py" "t.py" "/r" =
      get_coverage_gapsJ envC10 "a.py" "t.py" "/r" ∧
    auto_generate_tests_for_coverageJ envC10 "a.py" "t.py" "/r" 90 =
      get_coverage_gapsJ envC10 "a.py" "t.py" "/r" := by
  obtain ⟨h1, h2, -, -⟩ := C10_inner_error_passthrough envC10 "a.py" "t.py" "/r" 90 rfl
  exact ⟨h1, h2⟩

end CcMcp
